/-
Verification of the Minimax streaming TTS client
(src/plugins/minimax/tts.py) against its natural-language specification.

Python strings are embedded as `List Char`; bytes as `List Nat`.
Fallible operations return `Except`/`Option`.  The WebSocket message
stream consumed by `SynthesizeStream` is embedded as a finite
`List WSMessage`: exhausting the list models a stall (no further message
arrives within the per-message timeout).
-/
import Mathlib

namespace MinimaxTTS

/-! ## Python string helpers -/

/-- Python ASCII whitespace, as recognised by `str.strip()`. -/
def isPySpace (c : Char) : Bool :=
  c == ' ' || c == '\t' || c == '\n' || c == '\r' ||
  c == Char.ofNat 11 || c == Char.ofNat 12

/-- Embeds Python `str.strip()`: drop leading and trailing whitespace. -/
def pyStrip (s : List Char) : List Char :=
  ((s.dropWhile isPySpace).reverse.dropWhile isPySpace).reverse

/-- Embeds Python `str.startswith(p)` on `List Char`. -/
def startsWith : List Char → List Char → Bool
  | [], _ => true
  | _ :: _, [] => false
  | p :: ps, c :: cs => p == c && startsWith ps cs

/-- The literal `"Bearer "` prefix used by `TTS.__init__`. -/
def bearer : List Char := ['B', 'e', 'a', 'r', 'e', 'r', ' ']

/-- Embeds `if minimax_api_key.startswith("Bearer "): minimax_api_key = minimax_api_key[7:]`
(src/plugins/minimax/tts.py:135-136). -/
def stripBearer (k : List Char) : List Char :=
  if startsWith bearer k then k.drop 7 else k

/-- Embeds the full key normalization of `TTS.__init__`
(src/plugins/minimax/tts.py:134-139): strip one leading `"Bearer "` if
present, then prepend `"Bearer "`. -/
def normalizeApiKey (k : List Char) : List Char :=
  bearer ++ stripBearer k

/-- Python truthiness test `not x` for an optional string:
true for `None` and for the empty string. -/
def pyFalsy : Option (List Char) → Bool
  | none => true
  | some s => s.isEmpty

/-- Embeds `api_key if is_given(api_key) else os.environ.get("MINIMAX_API_KEY")`
(src/plugins/minimax/tts.py:126): a given argument wins, even when empty;
otherwise the environment value (possibly absent) is used. -/
def effectiveCred (given env : Option (List Char)) : Option (List Char) :=
  match given with
  | some v => some v
  | none => env

/-- The credential fields stored in `_TTSOptions` by a successful
`TTS.__init__`. -/
structure InitCreds where
  apiKey : List Char
  groupId : List Char
deriving DecidableEq, Repr

/-- A construction-time configuration error (`ValueError` in the source). -/
inductive ConfigError where
  | missingApiKey
  | missingGroupId
deriving DecidableEq, Repr

/-- Embeds the credential handling of `TTS.__init__`
(src/plugins/minimax/tts.py:126-154): resolve the API key (argument, else
environment) and fail when falsy; resolve the group id likewise; then
normalize the key with `stripBearer`/`"Bearer "` and store both. -/
def ttsInit (apiKey envApiKey groupId envGroupId : Option (List Char)) :
    Except ConfigError InitCreds :=
  let key := effectiveCred apiKey envApiKey
  if pyFalsy key then .error .missingApiKey
  else
    let grp := effectiveCred groupId envGroupId
    if pyFalsy grp then .error .missingGroupId
    else .ok { apiKey := normalizeApiKey (key.getD []), groupId := grp.getD [] }

/-! ## Basic facts about the key normalization -/

theorem startsWith_bearer_append (s : List Char) :
    startsWith bearer (bearer ++ s) = true := rfl

theorem drop_seven_bearer_append (s : List Char) :
    (bearer ++ s).drop 7 = s := rfl

theorem stripBearer_bearer_append (s : List Char) :
    stripBearer (bearer ++ s) = s := by
  simp [stripBearer, startsWith_bearer_append, drop_seven_bearer_append]

theorem normalizeApiKey_idem (k : List Char) :
    normalizeApiKey (normalizeApiKey k) = normalizeApiKey k := by
  simp [normalizeApiKey, stripBearer_bearer_append]

/-! ## Wire protocol data model -/

/-- Embeds Python `bytes.fromhex`: two hex digits per byte, with spaces
allowed between bytes; any other character, or an odd trailing digit,
is a decode failure (`ValueError`). -/
def hexDigit : Char → Option Nat
  | c =>
    if '0' ≤ c ∧ c ≤ '9' then some (c.toNat - 48)
    else if 'a' ≤ c ∧ c ≤ 'f' then some (c.toNat - 87)
    else if 'A' ≤ c ∧ c ≤ 'F' then some (c.toNat - 55)
    else none

/-- Decode a hex string to bytes; `none` models `ValueError` from
`bytes.fromhex` (src/plugins/minimax/tts.py:601). -/
def fromHex : List Char → Option (List Nat)
  | [] => some []
  | ' ' :: rest => fromHex rest
  | c1 :: c2 :: rest =>
    match hexDigit c1, hexDigit c2 with
    | some h, some l => (fromHex rest).map fun bs => (16 * h + l) :: bs
    | _, _ => none
  | [_] => none

/-- The parsed fields of one TEXT frame that `_recv_task` and the
handshake loops of `_run` read from the JSON payload:
`data.get("event")`, `data.get("message")`,
`data.get("base_resp", {}).get("status_msg")`,
`data["data"]["audio"]` (when present), `data.get("is_final", False)`. -/
structure WireEvent where
  event : Option String
  message : Option String
  statusMsg : Option String
  audio : Option (List Char)
  isFinal : Bool
deriving DecidableEq, Repr

/-- One incoming WebSocket message, by `aiohttp.WSMsgType`.  `other`
stands for the remaining message types, which the client only logs. -/
inductive WSMessage where
  | text (ev : WireEvent)
  | binary
  | closed
  | closing
  | wserror
  | other
deriving DecidableEq, Repr

/-- A fatal error raised while establishing the session
(`APIConnectionError` / `APIStatusError` in `SynthesizeStream._run`). -/
inductive HandshakeError where
  | connectionFailed (statusMsg : String)
  | connectionClosed
  | taskStartFailed (msg : String)
  | noTaskStarted
deriving DecidableEq, Repr

/-- Embeds the first handshake loop of `SynthesizeStream._run`
(src/plugins/minimax/tts.py:409-423): wait for a TEXT event
`connected_success`; any other TEXT event raises `APIConnectionError`
with the server's `status_msg`; a CLOSED or ERROR frame raises
`APIConnectionError`; other frame types are skipped.  Exhaustion of the
message stream leaves the loop without an acknowledgment (the source
falls through to the next phase, which then cannot succeed). -/
def awaitConnected : List WSMessage → Except HandshakeError (List WSMessage)
  | [] => .ok []
  | .text ev :: rest =>
    if ev.event = some "connected_success" then .ok rest
    else .error (.connectionFailed (ev.statusMsg.getD "Unknown connection error"))
  | .closed :: _ => .error .connectionClosed
  | .wserror :: _ => .error .connectionClosed
  | .binary :: rest => awaitConnected rest
  | .closing :: rest => awaitConnected rest
  | .other :: rest => awaitConnected rest

/-- Embeds the second handshake loop of `SynthesizeStream._run`
(src/plugins/minimax/tts.py:448-468): wait for a TEXT event
`task_started`; a TEXT `error` event raises `APIStatusError`; any other
TEXT event is skipped; CLOSED or ERROR raises `APIConnectionError`;
exhaustion without `task_started` hits the safeguard
`raise APIConnectionError("Failed to receive task_started confirmation.")`. -/
def awaitTaskStarted : List WSMessage → Except HandshakeError (List WSMessage)
  | [] => .error .noTaskStarted
  | .text ev :: rest =>
    if ev.event = some "task_started" then .ok rest
    else if ev.event = some "error" then
      .error (.taskStartFailed (ev.message.getD "Unknown error starting task"))
    else awaitTaskStarted rest
  | .closed :: _ => .error .connectionClosed
  | .wserror :: _ => .error .connectionClosed
  | .binary :: rest => awaitTaskStarted rest
  | .closing :: rest => awaitTaskStarted rest
  | .other :: rest => awaitTaskStarted rest

/-- The complete connection-setup phase of `SynthesizeStream._run`: the
connection becomes usable by the pipeline (the input/send/receive tasks
are spawned) only when both loops return normally. -/
def handshake (msgs : List WSMessage) : Except HandshakeError (List WSMessage) :=
  awaitConnected msgs >>= awaitTaskStarted

/-! ## Audio byte stream and emitter trace -/

/-- Modelled from the spec: the external `utils.audio.AudioByteStream`
collaborator (not under src/).  It buffers raw PCM bytes, emits
fixed-size frames from `write`, and emits the buffered remainder from
`flush`. -/
structure AudioByteStream where
  frameBytes : Nat
  buf : List Nat
deriving DecidableEq, Repr

/-- Cut complete frames of `fb` bytes off the front of `bs`, returning
the frames and the remainder; `fuel` bounds the recursion. -/
def takeFrames (fb : Nat) : Nat → List Nat → List (List Nat) × List Nat
  | 0, bs => ([], bs)
  | fuel + 1, bs =>
    if 0 < fb ∧ fb ≤ bs.length then
      let p := takeFrames fb fuel (bs.drop fb)
      (bs.take fb :: p.1, p.2)
    else ([], bs)

/-- Modelled from the spec: `AudioByteStream.write(data)` — append to the
buffer, emit every complete frame, keep the remainder buffered. -/
def absWrite (s : AudioByteStream) (data : List Nat) :
    List (List Nat) × AudioByteStream :=
  let all := s.buf ++ data
  let p := takeFrames s.frameBytes all.length all
  (p.1, { s with buf := p.2 })

/-- Modelled from the spec: `AudioByteStream.flush()` — emit the
buffered remainder (if any) as a final frame and clear the buffer. -/
def absFlush (s : AudioByteStream) : List (List Nat) × AudioByteStream :=
  if s.buf.isEmpty then ([], s) else ([s.buf], { s with buf := [] })

/-- One observable action of `_recv_task` on the Audio Emitter or the
error channel, in program order: a pushed audio frame
(`emitter.push(frame)`), a segment-flush boundary (`emitter.flush()`),
an API error event forwarded via `_emit_error(APIStatusError(...),
recoverable=...)`, or a hex-decode failure forwarded via
`_emit_error(APIError(...), recoverable=...)`. -/
inductive EmitAction where
  | push (bytes : List Nat)
  | segmentFlush
  | apiError (msg : String) (recoverable : Bool)
  | decodeError (recoverable : Bool)
deriving DecidableEq, Repr

/-- The error-event check at the top of `_recv_task`'s TEXT branch
(src/plugins/minimax/tts.py:590-595): an `error` event is forwarded with
`recoverable=False` and the loop continues. -/
def errorActions (ev : WireEvent) : List EmitAction :=
  if ev.event = some "error" then
    [.apiError (ev.message.getD "Unknown streaming error") false]
  else []

/-- The audio-payload handling of `_recv_task`
(src/plugins/minimax/tts.py:597-615): decode the hex payload; on
success feed it to the `AudioByteStream` and push the resulting frames;
on `ValueError` emit a decode error with `recoverable=False` and
continue. -/
def audioActions (s : AudioByteStream) (ev : WireEvent) :
    List EmitAction × AudioByteStream :=
  match ev.audio with
  | none => ([], s)
  | some hex =>
    match fromHex hex with
    | none => ([.decodeError false], s)
    | some bytes =>
      let p := absWrite s bytes
      (p.1.map .push, p.2)

/-- The `is_final` handling of `_recv_task`
(src/plugins/minimax/tts.py:617-624): flush the byte stream, push the
remaining frames, then emit the segment boundary `emitter.flush()`. -/
def finalActions (s : AudioByteStream) (ev : WireEvent) :
    List EmitAction × AudioByteStream :=
  if ev.isFinal then
    let p := absFlush s
    (p.1.map .push ++ [.segmentFlush], p.2)
  else ([], s)

/-- Processing of one TEXT frame by `_recv_task`
(src/plugins/minimax/tts.py:583-624), in source order: error event
check, then audio payload, then `is_final`. -/
def processTextEvent (s : AudioByteStream) (ev : WireEvent) :
    List EmitAction × AudioByteStream :=
  let a := audioActions s ev
  let f := finalActions a.2 ev
  (errorActions ev ++ a.1 ++ f.1, f.2)

/-- How `_recv_task` ends: `completed` models breaking out of the loop on
a CLOSED/CLOSING frame; `connectionError` models
`raise APIConnectionError` on an ERROR frame; `timeoutError` models
`raise APITimeoutError` when no message arrives within the per-message
timeout (src/plugins/minimax/tts.py:628-641). -/
inductive RecvOutcome where
  | completed
  | connectionError
  | timeoutError
deriving DecidableEq, Repr

/-- The `finally` block of `_recv_task`
(src/plugins/minimax/tts.py:649-655): flush any remaining buffered audio
as pushes (without an emitter segment flush). -/
def finalFlushActs (s : AudioByteStream) : List EmitAction :=
  (absFlush s).1.map .push

/-- Embeds the read loop of `_recv_task`
(src/plugins/minimax/tts.py:569-641), started after `task_started`:
TEXT frames are processed by `processTextEvent` and the loop continues;
BINARY and unhandled types are logged and skipped; CLOSED/CLOSING breaks
the loop; ERROR raises a connection error; exhaustion of the incoming
messages models the receive timeout (`asyncio.TimeoutError` →
`APITimeoutError`).  On every exit path the `finally` block flushes the
remaining buffer. -/
def recvLoop (s : AudioByteStream) : List WSMessage → List EmitAction × RecvOutcome
  | [] => (finalFlushActs s, .timeoutError)
  | .text ev :: rest =>
    let p := processTextEvent s ev
    let q := recvLoop p.2 rest
    (p.1 ++ q.1, q.2)
  | .binary :: rest => recvLoop s rest
  | .closed :: _ => (finalFlushActs s, .completed)
  | .closing :: _ => (finalFlushActs s, .completed)
  | .wserror :: _ => (finalFlushActs s, .connectionError)
  | .other :: rest => recvLoop s rest

/-- The full receive stage over a fresh `AudioByteStream` with frame
size `fb`. -/
def recvRun (fb : Nat) (msgs : List WSMessage) : List EmitAction × RecvOutcome :=
  recvLoop { frameBytes := fb, buf := [] } msgs

/-- The emitter/error trace of the receive stage. -/
def recvTrace (fb : Nat) (msgs : List WSMessage) : List EmitAction :=
  (recvRun fb msgs).1

/-- The terminal outcome of the receive stage. -/
def recvOutcome (fb : Nat) (msgs : List WSMessage) : RecvOutcome :=
  (recvRun fb msgs).2

/-! ## Send stage -/

/-- A client-to-server message sent by `_send_task`. -/
inductive OutMsg where
  | taskContinue (text : List Char)
  | taskFinish
deriving DecidableEq, Repr

/-- The `if not token.strip(): continue` test of `_send_task`
(src/plugins/minimax/tts.py:538): a token is sent only when stripping
whitespace leaves it non-empty. -/
def pySendable (t : List Char) : Bool :=
  !(pyStrip t).isEmpty

/-- Embeds `_send_task` (src/plugins/minimax/tts.py:532-553): each
non-empty token from the tokenizer becomes a `task_continue` message, in
order; after the tokenizer finishes, a single `task_finish` is sent.
No other signal is produced. -/
def sendMessages (tokens : List (List Char)) : List OutMsg :=
  (tokens.filter pySendable).map .taskContinue ++ [.taskFinish]

/-! ## Spec-level view of the connection handshake -/

/-- Frame types the first handshake loop silently skips (no branch in
the source handles them): BINARY, CLOSING and unhandled types. -/
def isSkippableConnect : WSMessage → Bool
  | .binary => true
  | .closing => true
  | .other => true
  | _ => false

/-- Frames the second handshake loop silently skips: the transport types
above plus any TEXT event that is neither `task_started` nor `error`. -/
def isSkippableTaskStart : WSMessage → Bool
  | .binary => true
  | .closing => true
  | .other => true
  | .text ev =>
    if ev.event = some "task_started" ∨ ev.event = some "error" then false else true
  | _ => false

/-- The behaviour of the first handshake loop on its first non-skipped
frame. -/
def awaitConnectedHead : List WSMessage → Except HandshakeError (List WSMessage)
  | [] => .ok []
  | .text ev :: rest =>
    if ev.event = some "connected_success" then .ok rest
    else .error (.connectionFailed (ev.statusMsg.getD "Unknown connection error"))
  | _ :: _ => .error .connectionClosed

/-- The behaviour of the second handshake loop on its first non-skipped
frame. -/
def awaitTaskStartedHead : List WSMessage → Except HandshakeError (List WSMessage)
  | [] => .error .noTaskStarted
  | .text ev :: rest =>
    if ev.event = some "task_started" then .ok rest
    else .error (.taskStartFailed (ev.message.getD "Unknown error starting task"))
  | _ :: _ => .error .connectionClosed

/-- Following the spec's words: the connection is usable exactly when a
`connected` acknowledgment is the first meaningful frame received, and a
`session started` acknowledgment follows it before any error event,
transport closure, or end of stream — i.e. both acknowledgments are
observed, in that order. -/
def specAcksInOrder (msgs : List WSMessage) : Bool :=
  match msgs.dropWhile isSkippableConnect with
  | .text ev :: rest =>
    if ev.event = some "connected_success" then
      match rest.dropWhile isSkippableTaskStart with
      | .text ev2 :: _ => decide (ev2.event = some "task_started")
      | _ => false
    else false
  | _ => false

theorem awaitConnected_eq_head (msgs : List WSMessage) :
    awaitConnected msgs = awaitConnectedHead (msgs.dropWhile isSkippableConnect) := by
  induction msgs with
  | nil => rfl
  | cons m rest ih =>
    cases m <;> simp [awaitConnected, awaitConnectedHead, List.dropWhile,
      isSkippableConnect, ih]

theorem awaitTaskStarted_eq_head (msgs : List WSMessage) :
    awaitTaskStarted msgs = awaitTaskStartedHead (msgs.dropWhile isSkippableTaskStart) := by
  induction msgs with
  | nil => rfl
  | cons m rest ih =>
    cases m with
    | text ev =>
      by_cases h1 : ev.event = some "task_started"
      · simp [awaitTaskStarted, awaitTaskStartedHead, List.dropWhile,
          isSkippableTaskStart, h1]
      · by_cases h2 : ev.event = some "error"
        · simp [awaitTaskStarted, awaitTaskStartedHead, List.dropWhile,
            isSkippableTaskStart, h1, h2]
        · simp [awaitTaskStarted, awaitTaskStartedHead, List.dropWhile,
            isSkippableTaskStart, h1, h2, ih]
    | _ => simp [awaitTaskStarted, awaitTaskStartedHead, List.dropWhile,
        isSkippableTaskStart, ih]

/-! ## Spec-level view of the receive loop's termination -/

/-- Frames that end the read loop of `_recv_task`: CLOSED and CLOSING
(break), and ERROR (raise). -/
def isTerminalMsg : WSMessage → Bool
  | .closed => true
  | .closing => true
  | .wserror => true
  | _ => false

/-- The outcome a terminal frame produces. -/
def terminalOutcome : WSMessage → RecvOutcome
  | .wserror => .connectionError
  | _ => .completed

/-- The outcome determined by the first terminal frame of the incoming
stream; a stream with no terminal frame stalls into the timeout. -/
def firstTerminalOutcome (msgs : List WSMessage) : RecvOutcome :=
  match msgs.find? isTerminalMsg with
  | some m => terminalOutcome m
  | none => .timeoutError

theorem recvLoop_outcome (msgs : List WSMessage) :
    ∀ s, (recvLoop s msgs).2 = firstTerminalOutcome msgs := by
  induction msgs with
  | nil => intro s; rfl
  | cons m rest ih =>
    intro s
    cases m <;>
      simp [recvLoop, firstTerminalOutcome, List.find?, isTerminalMsg,
        terminalOutcome, ih]

/-- Convenient event literals for concrete runs. -/
def evError (m : String) : WireEvent :=
  { event := some "error", message := some m, statusMsg := none,
    audio := none, isFinal := false }

/-- A plain audio event with hex payload `hex` and the given `is_final`
flag. -/
def evAudio (hex : List Char) (fin : Bool) : WireEvent :=
  { event := none, message := none, statusMsg := none,
    audio := some hex, isFinal := fin }

/-! ## Claims -/

/-- C1 (corrected), counterexample: with frame size 4 and the incoming
stream `[error event "boom", audio "0a0b0c" with is_final, CLOSED]`, the
read loop does not terminate at the fatal API error event — it continues
and forwards the following token's audio, ending only at the CLOSED
frame; and a stream in which the server acknowledges the only token with
`is_final` but never closes the connection does not terminate
successfully: it ends in the timeout error.  Both contradict the claimed
termination condition (no pending-request counter exists in the code). -/
theorem claim_C1_counterexample :
    recvTrace 4 [.text (evError "boom"),
      .text (evAudio ['0', 'a', '0', 'b', '0', 'c'] true), .closed] =
      [.apiError "boom" false, .push [10, 11, 12], .segmentFlush]
    ∧ recvOutcome 4 [.text (evError "boom"),
        .text (evAudio ['0', 'a', '0', 'b', '0', 'c'] true), .closed] =
        .completed
    ∧ recvOutcome 4 [.text (evAudio ['0', 'a', '0', 'b', '0', 'c'] true)] =
        .timeoutError := by
  refine ⟨?_, ?_, ?_⟩ <;> rfl

/-- C1 (amended): the read loop of `_recv_task` terminates exactly when
the first terminal frame of the incoming stream is reached — CLOSED or
CLOSING frames end it as a completed stream, an ERROR frame ends it as a
connection error, and a stream that stalls without any terminal frame
ends in the timeout error.  API error events, audio events and all other
frames never terminate the loop; no pending-request counter exists. -/
theorem claim_C1_amended (fb : Nat) (msgs : List WSMessage) :
    recvOutcome fb msgs = firstTerminalOutcome msgs :=
  recvLoop_outcome msgs _

/-- C2 (confirmed): the connection-setup phase of `SynthesizeStream._run`
returns usable (the three pipeline tasks are spawned) exactly when a
`connected_success` acknowledgment is the first meaningful frame
received and a `task_started` acknowledgment follows before any error
event, transport closure, or end of stream; in every other case —
another event type while awaiting the connect ack, acknowledgments out
of order, or closure before both acknowledgments — it raises a fatal
error, never a silent success. -/
theorem claim_C2 (msgs : List WSMessage) :
    (∃ rest, handshake msgs = Except.ok rest) ↔ specAcksInOrder msgs = true := by
  unfold handshake
  rw [awaitConnected_eq_head]
  cases h1 : msgs.dropWhile isSkippableConnect with
  | nil =>
    simp [awaitConnectedHead, awaitTaskStarted, specAcksInOrder, h1,
      Bind.bind, Except.bind]
  | cons m rest =>
    cases m with
    | text ev =>
      by_cases hc : ev.event = some "connected_success"
      · rw [show awaitConnectedHead (WSMessage.text ev :: rest) = Except.ok rest by
          simp [awaitConnectedHead, hc]]
        show (∃ r, awaitTaskStarted rest = Except.ok r) ↔ _
        rw [awaitTaskStarted_eq_head]
        cases h2 : rest.dropWhile isSkippableTaskStart with
        | nil =>
          simp [awaitTaskStartedHead, specAcksInOrder, h1, h2, hc]
        | cons m2 rest2 =>
          cases m2 with
          | text ev2 =>
            by_cases ht : ev2.event = some "task_started"
            · simp [awaitTaskStartedHead, specAcksInOrder, h1, h2, hc, ht]
            · simp [awaitTaskStartedHead, specAcksInOrder, h1, h2, hc, ht]
          | _ => simp [awaitTaskStartedHead, specAcksInOrder, h1, h2, hc]
      · simp [awaitConnectedHead, specAcksInOrder, h1, hc, Bind.bind, Except.bind]
    | _ =>
      simp [awaitConnectedHead, specAcksInOrder, h1, Bind.bind, Except.bind]

/-- C3 (corrected), counterexample: a stream where the receive stage
stalls after an audio event (no further message and no completion
signal) does not force-complete with a warning — it ends in the timeout
outcome, which the code raises to the caller as `APITimeoutError`
(src/plugins/minimax/tts.py:638-641), i.e. the timeout is surfaced as a
stream error. -/
theorem claim_C3_counterexample :
    recvOutcome 4 [.text (evAudio ['0', 'a'] false)] = .timeoutError := by
  rfl

/-- C3 (amended): whenever the incoming stream contains no terminal
frame (no closure and no transport error) and then stalls, the receive
stage ends in the timeout outcome, which `_recv_task` raises as
`APITimeoutError` — a stream error surfaced to the caller, not a forced
completion with a recorded warning. -/
theorem claim_C3_amended (fb : Nat) (msgs : List WSMessage)
    (h : ∀ m ∈ msgs, isTerminalMsg m = false) :
    recvOutcome fb msgs = .timeoutError := by
  have hfind : msgs.find? isTerminalMsg = none := by
    rw [List.find?_eq_none]
    intro m hm
    simp [h m hm]
  unfold recvOutcome recvRun
  rw [recvLoop_outcome]
  simp [firstTerminalOutcome, hfind]

/-- C3 witness: a concrete stalled stream (a single BINARY frame, no
closure) ends in the timeout error. -/
theorem claim_C3_witness :
    recvOutcome 4 [WSMessage.binary] = .timeoutError :=
  claim_C3_amended 4 [WSMessage.binary] (by decide)

/-- C4 (corrected), counterexample: three tokens, where the server
returns an error event for token 2 only (no closure).  The loop
continues and the stream completes on closure with the other tokens'
audio forwarded — but the error for token 2 is emitted with
`recoverable := false` (`_emit_error(APIStatusError(...),
recoverable=False)`, src/plugins/minimax/tts.py:593), not as the
recoverable per-token error the claim states. -/
theorem claim_C4_counterexample :
    recvTrace 4 [.text (evAudio ['0', 'a', '0', 'b'] true),
      .text (evError "tok2"), .text (evAudio ['f', 'f'] true), .closed] =
      [.push [10, 11], .segmentFlush, .apiError "tok2" false,
        .push [255], .segmentFlush]
    ∧ recvOutcome 4 [.text (evAudio ['0', 'a', '0', 'b'] true),
        .text (evError "tok2"), .text (evAudio ['f', 'f'] true), .closed] =
        .completed := by
  exact ⟨rfl, rfl⟩

/-- C4 (amended): a server error event received after the session is
started and not accompanied by connection closure is emitted to the
caller with `recoverable := false`, and the receive loop continues
unchanged: the remaining messages are processed exactly as they would
have been without the error event, so subsequent tokens' audio is still
forwarded and the stream's outcome is that of the rest of the stream. -/
theorem claim_C4_amended (fb : Nat) (ev : WireEvent) (rest : List WSMessage)
    (he : ev.event = some "error") (ha : ev.audio = none)
    (hf : ev.isFinal = false) :
    recvRun fb (.text ev :: rest) =
      (.apiError (ev.message.getD "Unknown streaming error") false ::
        (recvRun fb rest).1, (recvRun fb rest).2) := by
  simp [recvRun, recvLoop, processTextEvent, errorActions, audioActions,
    finalActions, he, ha, hf]

/-- C4 witness: the amended statement at a concrete error event followed
by a CLOSED frame. -/
theorem claim_C4_witness :
    recvRun 2 [.text (evError "boom"), .closed] =
      (.apiError "boom" false :: (recvRun 2 [.closed]).1,
        (recvRun 2 [.closed]).2) :=
  claim_C4_amended 2 (evError "boom") [.closed] rfl rfl rfl

/-- C5 (corrected), counterexample: a malformed hex payload (`"zz"`)
does not abort the loop — the next event's audio is still decoded and
forwarded and the stream completes — but the decode failure is emitted
with `recoverable := false` (`_emit_error(APIError(...),
recoverable=False)`, src/plugins/minimax/tts.py:612), not as the
non-fatal per-chunk error the claim states. -/
theorem claim_C5_counterexample :
    recvTrace 4 [.text (evAudio ['z', 'z'] false),
      .text (evAudio ['0', 'a'] true), .closed] =
      [.decodeError false, .push [10], .segmentFlush]
    ∧ recvOutcome 4 [.text (evAudio ['z', 'z'] false),
        .text (evAudio ['0', 'a'] true), .closed] = .completed := by
  exact ⟨rfl, rfl⟩

/-- C5 (amended): a received audio payload whose hex encoding is
malformed is handled per chunk: the failure is emitted to the caller
with `recoverable := false` and the receive loop does not raise — the
remaining messages are processed exactly as they would have been without
the malformed chunk, and the stream's outcome is that of the rest of the
stream. -/
theorem claim_C5_amended (fb : Nat) (ev : WireEvent) (hex : List Char)
    (rest : List WSMessage) (hne : ev.event ≠ some "error")
    (ha : ev.audio = some hex) (hbad : fromHex hex = none)
    (hf : ev.isFinal = false) :
    recvRun fb (.text ev :: rest) =
      (.decodeError false :: (recvRun fb rest).1, (recvRun fb rest).2) := by
  simp [recvRun, recvLoop, processTextEvent, errorActions, audioActions,
    finalActions, hne, ha, hbad, hf]

/-- C5 witness: the amended statement at the concrete malformed payload
`"zz"` followed by a CLOSED frame. -/
theorem claim_C5_witness :
    recvRun 2 [.text (evAudio ['z', 'z'] false), .closed] =
      (.decodeError false :: (recvRun 2 [.closed]).1,
        (recvRun 2 [.closed]).2) :=
  claim_C5_amended 2 (evAudio ['z', 'z'] false) ['z', 'z'] [.closed]
    (by simp [evAudio]) rfl rfl rfl

/-- C7 (corrected), counterexample: when tokenization produces zero
tokens, the send stage sends only the ordinary `task_finish` message —
no dedicated "no tokens sent" condition exists in the code — and a
receive stage the server never answers ends in the timeout error, not in
a prompt signal-bounded completion with no pending responses awaited. -/
theorem claim_C7_counterexample :
    sendMessages [] = [OutMsg.taskFinish]
    ∧ recvOutcome 4 [] = .timeoutError := by
  exact ⟨rfl, rfl⟩

/-- C7 (amended): if tokenization produces only tokens that strip to
empty (in particular, none at all) before ending, the send stage
transmits exactly the single `task_finish` message; there is no
dedicated "no tokens sent" signal, and the receive stage's termination
is governed solely by server closure or the receive timeout. -/
theorem claim_C7_amended (tokens : List (List Char))
    (h : ∀ t ∈ tokens, pySendable t = false) :
    sendMessages tokens = [OutMsg.taskFinish] := by
  have : tokens.filter pySendable = [] := by
    rw [List.filter_eq_nil_iff]
    intro t ht
    simp [h t ht]
  simp [sendMessages, this]

/-- C7 witness: a single all-whitespace token produces only
`task_finish`. -/
theorem claim_C7_witness :
    sendMessages [[' ']] = [OutMsg.taskFinish] :=
  claim_C7_amended [[' ']] (by decide)

theorem takeFrames_flatten (fb : Nat) :
    ∀ (fuel : Nat) (bs : List Nat),
      ((takeFrames fb fuel bs).1).flatten ++ (takeFrames fb fuel bs).2 = bs := by
  intro fuel
  induction fuel with
  | zero => intro bs; simp [takeFrames]
  | succ n ih =>
    intro bs
    by_cases h : 0 < fb ∧ fb ≤ bs.length
    · simp only [takeFrames, if_pos h, List.flatten_cons, List.append_assoc, ih]
      exact List.take_append_drop fb bs
    · simp [takeFrames, if_neg h]

/-- C8 (confirmed): for every received protocol event carrying both an
audio payload (that decodes) and the `is_final` flag, `_recv_task`
pushes all of that token's decoded audio — the previously buffered
remainder followed by this payload's bytes, in order — to the Emitter
and only then emits the segment-flush boundary; nothing stays buffered,
so the segment flush never precedes delivery of the token's chunks and
no bytes are reordered. -/
theorem claim_C8 (fb : Nat) (buf : List Nat) (ev : WireEvent)
    (hex : List Char) (bytes : List Nat) (ha : ev.audio = some hex)
    (hdec : fromHex hex = some bytes) (hf : ev.isFinal = true) :
    ∃ frames : List (List Nat),
      (processTextEvent { frameBytes := fb, buf := buf } ev).1 =
        errorActions ev ++ frames.map EmitAction.push ++ [EmitAction.segmentFlush]
      ∧ frames.flatten = buf ++ bytes
      ∧ (processTextEvent { frameBytes := fb, buf := buf } ev).2.buf = [] := by
  have hjoin := takeFrames_flatten fb (buf ++ bytes).length (buf ++ bytes)
  simp only [processTextEvent, audioActions, ha, hdec, absWrite, finalActions,
    hf, if_pos trivial, absFlush]
  set p := takeFrames fb (buf ++ bytes).length (buf ++ bytes) with hp
  by_cases hr : p.2.isEmpty
  · refine ⟨p.1, ?_, ?_, ?_⟩
    · simp [hr]
    · have h2 : p.2 = [] := by simpa [List.isEmpty_iff] using hr
      simpa [h2] using hjoin
    · have h2 : p.2 = [] := by simpa [List.isEmpty_iff] using hr
      simp [h2]
  · refine ⟨p.1 ++ [p.2], ?_, ?_, ?_⟩
    · simp [hr]
    · simpa using hjoin
    · simp [hr]

/-- C8 witness: frame size 4, two bytes already buffered from the
token's earlier chunks, and a final audio event `"0a0b0c"`. -/
theorem claim_C8_witness :
    ∃ frames : List (List Nat),
      (processTextEvent { frameBytes := 4, buf := [1, 2] }
          (evAudio ['0', 'a', '0', 'b', '0', 'c'] true)).1 =
        errorActions (evAudio ['0', 'a', '0', 'b', '0', 'c'] true) ++
          frames.map EmitAction.push ++ [EmitAction.segmentFlush]
      ∧ frames.flatten = [1, 2] ++ [10, 11, 12]
      ∧ (processTextEvent { frameBytes := 4, buf := [1, 2] }
          (evAudio ['0', 'a', '0', 'b', '0', 'c'] true)).2.buf = [] :=
  claim_C8 4 [1, 2] (evAudio ['0', 'a', '0', 'b', '0', 'c'] true)
    ['0', 'a', '0', 'b', '0', 'c'] [10, 11, 12] rfl rfl rfl

/-- C9 (confirmed): `TTS.__init__` raises synchronously at construction
exactly when the effective API key or the effective group id (the given
argument, else the environment value) is missing or empty; when both are
present and non-empty, construction succeeds and stores a non-empty
`"Bearer "`-prefixed key and a non-empty group id, so a successfully
constructed client carries valid credentials and the stream-time code —
which performs no credential check — can never raise a
credentials-missing error. -/
theorem claim_C9 (ak eak gk egk : Option (List Char)) :
    (pyFalsy (effectiveCred ak eak) = true ∨ pyFalsy (effectiveCred gk egk) = true →
      ∃ e, ttsInit ak eak gk egk = Except.error e)
    ∧ (pyFalsy (effectiveCred ak eak) = false →
        pyFalsy (effectiveCred gk egk) = false →
        ∃ r, ttsInit ak eak gk egk = Except.ok r
          ∧ r.apiKey ≠ [] ∧ r.groupId ≠ []) := by
  constructor
  · intro h
    rcases h with h | h
    · exact ⟨.missingApiKey, by simp [ttsInit, h]⟩
    · by_cases hk : pyFalsy (effectiveCred ak eak)
      · exact ⟨.missingApiKey, by simp [ttsInit, hk]⟩
      · exact ⟨.missingGroupId, by simp [ttsInit, hk, h]⟩
  · intro hk hg
    refine ⟨InitCreds.mk (normalizeApiKey ((effectiveCred ak eak).getD []))
        ((effectiveCred gk egk).getD []), by simp [ttsInit, hk, hg], ?_, ?_⟩
    · simp [normalizeApiKey, bearer]
    · cases hgv : effectiveCred gk egk with
      | none => rw [hgv] at hg; simp [pyFalsy] at hg
      | some g =>
        rw [hgv] at hg
        simp only [pyFalsy] at hg
        simpa [hgv, List.isEmpty_iff] using hg

/-- C9 witness: a missing API key (not supplied, not in the environment)
is a construction-time error, while non-empty credentials construct
successfully with non-empty stored values. -/
theorem claim_C9_witness :
    (∃ e, ttsInit none none (some ['g']) none = Except.error e)
    ∧ (∃ r, ttsInit (some ['k']) none (some ['g']) none = Except.ok r
        ∧ r.apiKey ≠ [] ∧ r.groupId ≠ []) :=
  ⟨(claim_C9 none none (some ['g']) none).1 (Or.inl rfl),
    (claim_C9 (some ['k']) none (some ['g']) none).2 rfl rfl⟩

/-- C10 (corrected), counterexample: for the non-empty key
`K = "Bearer X"`, constructing with `K` stores `"Bearer X"` but
constructing with `"Bearer " + K` stores `"Bearer Bearer X"` — only a
single leading `"Bearer "` is stripped, so the two constructions do not
yield identical stored credentials, contrary to the claim. -/
theorem claim_C10_counterexample :
    normalizeApiKey (bearer ++ ['X']) ≠
      normalizeApiKey (bearer ++ (bearer ++ ['X']))
    ∧ bearer ++ ['X'] ≠ []
    ∧ (ttsInit (some (bearer ++ ['X'])) none (some ['g']) none).toOption.map
          InitCreds.apiKey ≠
        (ttsInit (some (bearer ++ (bearer ++ ['X']))) none (some ['g'])
          none).toOption.map InitCreds.apiKey := by
  refine ⟨by decide, by decide, by decide⟩

theorem startsWith_le_length : ∀ (p k : List Char),
    startsWith p k = true → p.length ≤ k.length := by
  intro p
  induction p with
  | nil => intro k h; simp
  | cons c cs ih =>
    intro k h
    cases k with
    | nil => simp [startsWith] at h
    | cons d ds =>
      simp only [startsWith, Bool.and_eq_true] at h
      simp only [List.length_cons]
      exact Nat.succ_le_succ (ih ds h.2)

/-- C10 (amended): the stored key is `"Bearer "` followed by the given
key with a single leading `"Bearer "` removed if present; this
normalization is idempotent as a function — re-normalizing a stored key
changes nothing — and constructing with `K` and with `"Bearer " + K`
yields identical stored credentials exactly when `K` does not itself
start with `"Bearer "`. -/
theorem claim_C10_amended (k : List Char) :
    normalizeApiKey (normalizeApiKey k) = normalizeApiKey k
    ∧ (normalizeApiKey (bearer ++ k) = normalizeApiKey k ↔
        startsWith bearer k = false)
    ∧ (k ≠ [] → ∀ g, g ≠ [] →
        ∃ r, ttsInit (some k) none (some g) none = Except.ok r
          ∧ r.apiKey = normalizeApiKey k) := by
  refine ⟨normalizeApiKey_idem k, ?_, ?_⟩
  · have hb : normalizeApiKey (bearer ++ k) = bearer ++ k := by
      simp [normalizeApiKey, stripBearer_bearer_append]
    constructor
    · intro h
      rw [hb, normalizeApiKey] at h
      have hks : k = stripBearer k := List.append_cancel_left h
      cases hs : startsWith bearer k with
      | false => rfl
      | true =>
        exfalso
        have h7 : bearer.length ≤ k.length := startsWith_le_length bearer k hs
        have hdrop : k = k.drop 7 := by
          rw [stripBearer, if_pos hs] at hks
          exact hks
        have hlen : k.length = k.length - 7 := by
          conv_lhs => rw [hdrop]
          simp [List.length_drop]
        simp only [bearer, List.length_cons] at h7
        omega
    · intro h
      rw [hb]
      simp [normalizeApiKey, stripBearer, h]
  · intro hk g hg
    have hk' : k.isEmpty = false := by simpa [List.isEmpty_iff] using hk
    have hg' : g.isEmpty = false := by simpa [List.isEmpty_iff] using hg
    exact ⟨InitCreds.mk (normalizeApiKey k) g,
      by simp [ttsInit, pyFalsy, effectiveCred, hk', hg'], rfl⟩

/-- C10 witness: the amended statement at the concrete key `"X"`, which
does not start with `"Bearer "` (both directions of the biconditional
exercised: equality of the stored keys holds for `"X"`, and for the
prefixed key `"Bearer X"` the biconditional yields inequality). -/
theorem claim_C10_witness :
    normalizeApiKey (normalizeApiKey ['X']) = normalizeApiKey ['X']
    ∧ normalizeApiKey (bearer ++ ['X']) = normalizeApiKey ['X']
    ∧ normalizeApiKey (bearer ++ (bearer ++ ['X'])) ≠
        normalizeApiKey (bearer ++ ['X'])
    ∧ (∃ r, ttsInit (some ['X']) none (some ['g']) none = Except.ok r
        ∧ r.apiKey = normalizeApiKey ['X']) :=
  ⟨(claim_C10_amended ['X']).1,
    (claim_C10_amended ['X']).2.1.mpr rfl,
    fun h => by
      have h2 := (claim_C10_amended (bearer ++ ['X'])).2.1.mp h
      simp [startsWith_bearer_append] at h2,
    (claim_C10_amended ['X']).2.2 (by decide) ['g'] (by decide)⟩

end MinimaxTTS
